import Mathlib

/-!
Verification development for the Account CRUD microservice
(service/routes.py plus the Account model layer it calls).

The route handlers in service/routes.py are embedded directly.  The
Account model layer (serialize, deserialize, create, update, delete,
find, find_all) is not present under the sources, only its callers and
tests are, so those operations are modelled from the specification text;
each such definition carries a doc comment saying so.  The same holds
for the List and Delete routes, whose place in routes.py is a
placeholder comment.
-/

set_option autoImplicit false

/-- JSON wire values, shallow model of parsed request and response bodies. -/
inductive Json where
  | null : Json
  | bool : Bool → Json
  | num : Int → Json
  | str : String → Json
  | arr : List Json → Json
  | obj : List (String × Json) → Json

/-- First value bound to a key in a JSON object, like a Python dict lookup. -/
def lookupKey (fields : List (String × Json)) (key : String) : Option Json :=
  match fields.find? (fun kv => kv.1 == key) with
  | some kv => some kv.2
  | none => none

/-- Python truthiness of a JSON value (`not account_data` in the route). -/
def jsonTruthy : Json → Bool
  | Json.null => false
  | Json.bool b => b
  | Json.num n => n != 0
  | Json.str s => s != ""
  | Json.arr xs => !xs.isEmpty
  | Json.obj fields => !fields.isEmpty

/-- Splits a character list on the dash character. -/
def splitDashes : List Char → List (List Char)
  | [] => [[]]
  | c :: rest =>
    let r := splitDashes rest
    if c = '-' then [] :: r
    else
      match r with
      | [] => [[c]]
      | g :: gs => (c :: g) :: gs

/-- Numeric value of a nonempty all-digit character list. -/
def digitsVal (cs : List Char) : Option Nat :=
  match cs with
  | [] => none
  | _ =>
    if cs.all Char.isDigit then
      some (cs.foldl (fun acc c => acc * 10 + (c.toNat - 48)) 0)
    else none

/-- Whether a string has the shape of an ISO date YYYY-MM-DD with a
plausible month and day. -/
def isIsoDate (s : String) : Bool :=
  match splitDashes s.data with
  | [y, m, d] =>
    y.length == 4 && m.length == 2 && d.length == 2 &&
    (match digitsVal y, digitsVal m, digitsVal d with
     | some _, some mn, some dn =>
       decide (1 ≤ mn) && decide (mn ≤ 12) && decide (1 ≤ dn) && decide (dn ≤ 31)
     | _, _, _ => false)
  | _ => false

/-- Modelled from the spec: models.py is absent from the sources, so the
Account entity follows the data model section: server-assigned identifier,
required name and email strings, optional address and phone_number strings,
and date_joined, a date held here in its ISO wire rendering YYYY-MM-DD. -/
structure Account where
  id : Nat
  name : String
  email : String
  address : Option String
  phone_number : Option String
  date_joined : String
deriving Repr, DecidableEq

/-- Optional string attribute on the wire: null when absent. -/
def optStrJson : Option String → Json
  | none => Json.null
  | some s => Json.str s

/-- Modelled from the spec: serialize produces a JSON-compatible mapping of
all attributes, dates rendered as ISO strings (models.py is absent). -/
def Account.serialize (a : Account) : Json :=
  Json.obj
    [("id", Json.num a.id),
     ("name", Json.str a.name),
     ("email", Json.str a.email),
     ("address", optStrJson a.address),
     ("phone_number", optStrJson a.phone_number),
     ("date_joined", Json.str a.date_joined)]

/-- Reads an optional string attribute from the body: absent or null give
none, a string gives some, any other type is a validation error. -/
def readOptStr (fields : List (String × Json)) (key : String) :
    Except String (Option String) :=
  match lookupKey fields key with
  | none => Except.ok none
  | some Json.null => Except.ok none
  | some (Json.str s) => Except.ok (some s)
  | some _ => Except.error ("Invalid Account: bad type for " ++ key)

/-- Identifier taken from the body when present as a number, else 0; the
create operation overwrites it with the generated identifier. -/
def readId (fields : List (String × Json)) : Nat :=
  match lookupKey fields "id" with
  | some (Json.num n) => n.toNat
  | _ => 0

/-- Modelled from the spec: deserialize populates the attributes from an
input mapping and fails with a validation error if a required key (name,
email) is absent or a key has the wrong type; date_joined defaults to the
creation date when absent (models.py is absent from the sources). -/
def Account.deserialize (today : String) (data : Json) : Except String Account :=
  match data with
  | Json.obj fields =>
    match lookupKey fields "name", lookupKey fields "email" with
    | some (Json.str n), some (Json.str e) =>
      match readOptStr fields "address", readOptStr fields "phone_number" with
      | Except.ok addr, Except.ok ph =>
        (match lookupKey fields "date_joined" with
         | none => Except.ok { id := readId fields, name := n, email := e,
                               address := addr, phone_number := ph,
                               date_joined := today }
         | some (Json.str d) =>
           if isIsoDate d then
             Except.ok { id := readId fields, name := n, email := e,
                         address := addr, phone_number := ph, date_joined := d }
           else Except.error "Invalid Account: bad date_joined"
         | some _ => Except.error "Invalid Account: bad type for date_joined")
      | Except.error msg, _ => Except.error msg
      | _, Except.error msg => Except.error msg
    | _, _ => Except.error "Invalid Account: missing or bad name or email"
  | _ => Except.error "Invalid Account: body is not an object"

/-- The datastore: the stored rows plus the next generated identifier. -/
structure Store where
  accounts : List Account
  nextId : Nat
deriving Repr, DecidableEq

/-- Modelled from the spec: create inserts a new row and assigns the
generated identifier back onto the record (models.py is absent). -/
def Store.create (s : Store) (a : Account) : Store × Account :=
  let assigned := { a with id := s.nextId }
  ({ accounts := s.accounts ++ [assigned], nextId := s.nextId + 1 }, assigned)

/-- Modelled from the spec: find by id returns the matching record or an
absent indicator (models.py is absent). -/
def Store.find (s : Store) (account_id : Nat) : Option Account :=
  s.accounts.find? (fun a => a.id == account_id)

/-- Modelled from the spec: update persists the in-memory attribute values
over the existing row matching the identifier (models.py is absent). -/
def Store.update (s : Store) (a : Account) : Store :=
  { s with accounts := s.accounts.map (fun b => if b.id == a.id then a else b) }

/-- Modelled from the spec: delete removes the row matching the identifier
(models.py is absent). -/
def Store.delete (s : Store) (account_id : Nat) : Store :=
  { s with accounts := s.accounts.filter (fun a => a.id != account_id) }

/-- An HTTP request as it reaches a handler: the declared Content-Type
header, if any, and the parsed JSON body. -/
structure Request where
  contentType : Option String
  body : Json

/-- An HTTP response: status code, body, and the Location header if set.
Error responses carry the abort message as their body. -/
structure Response where
  status : Nat
  body : Json
  location : Option String

/-- Response produced by a flask abort: the status and its message. -/
def errResponse (code : Nat) (message : String) : Response :=
  { status := code, body := Json.str message, location := none }

/-- The shared guard check_content_type of routes.py: passes only when the
header is present, truthy, and equal to the expected media type; otherwise
it aborts with 415. -/
def check_content_type (media_type : String) (content_type : Option String) :
    Option Response :=
  match content_type with
  | some ct =>
    if ct != "" && ct == media_type then none
    else some (errResponse 415 ("Content-Type must be " ++ media_type))
  | none => some (errResponse 415 ("Content-Type must be " ++ media_type))

/-- POST /accounts of routes.py: guard, deserialize, create, 201 with the
serialized record and a Location header hardcoded to the root path. -/
def create_accounts (today : String) (store : Store) (req : Request) :
    Response × Store :=
  match check_content_type "application/json" req.contentType with
  | some resp => (resp, store)
  | none =>
    match Account.deserialize today req.body with
    | Except.error msg => (errResponse 400 msg, store)
    | Except.ok acct =>
      let created := store.create acct
      ({ status := 201, body := created.2.serialize, location := some "/" },
       created.1)

/-- GET /accounts/{id} of routes.py. -/
def get_account (store : Store) (account_id : Nat) : Response :=
  match store.find account_id with
  | none =>
    errResponse 404
      ("Account with id [" ++ toString account_id ++ "] could not be found.")
  | some a => { status := 200, body := a.serialize, location := none }

/-- The whitelist of updatable fields in routes.py. -/
def valid_fields : List String :=
  ["name", "email", "address", "phone_number", "date_joined"]

/-- Assigning a JSON value to a named attribute of the typed record.  A
value whose shape does not fit the attribute only fails later, at the
datastore write; that failure is surfaced by the caller as a 5xx. -/
def setField (a : Account) (key : String) (v : Json) : Option Account :=
  if key = "name" then
    match v with
    | Json.str s => some { a with name := s }
    | _ => none
  else if key = "email" then
    match v with
    | Json.str s => some { a with email := s }
    | _ => none
  else if key = "address" then
    match v with
    | Json.str s => some { a with address := some s }
    | Json.null => some { a with address := none }
    | _ => none
  else if key = "phone_number" then
    match v with
    | Json.str s => some { a with phone_number := some s }
    | Json.null => some { a with phone_number := none }
    | _ => none
  else if key = "date_joined" then
    match v with
    | Json.str s => some { a with date_joined := s }
    | _ => none
  else some a

/-- The update loop of routes.py: for each whitelisted key present in the
body, assign its value to the record. -/
def applyFields (a : Account) (fields : List (String × Json)) : Option Account :=
  valid_fields.foldl
    (fun acc key =>
      match acc with
      | none => none
      | some b =>
        match lookupKey fields key with
        | none => some b
        | some v => setField b key v)
    (some a)

/-- PUT /accounts/{id} of routes.py: existence check first, then the
content-type guard, then body validation, then the whitelist loop and the
persistence update. -/
def update_account (store : Store) (account_id : Nat) (req : Request) :
    Response × Store :=
  match store.find account_id with
  | none =>
    (errResponse 404 ("Account with id [" ++ toString account_id ++ "] not found."),
     store)
  | some account =>
    match check_content_type "application/json" req.contentType with
    | some resp => (resp, store)
    | none =>
      match req.body with
      | Json.obj fields =>
        if fields.isEmpty then
          (errResponse 400 "Invalid JSON data provided", store)
        else if valid_fields.any (fun key => (lookupKey fields key).isSome) then
          match applyFields account fields with
          | some updated =>
            ({ status := 200, body := updated.serialize, location := none },
             store.update updated)
          | none => (errResponse 500 "datastore rejected attribute value", store)
        else (errResponse 400 "No valid fields provided for update", store)
      | _ => (errResponse 400 "Invalid JSON data provided", store)

/-- Modelled from the spec: the List route is missing from routes.py (only
a placeholder comment stands at its place); the spec says it returns a JSON
array of all serialized records with status 200, the empty array if none
exist. -/
def list_accounts (store : Store) : Response :=
  { status := 200,
    body := Json.arr (store.accounts.map Account.serialize),
    location := none }

/-- Modelled from the spec: the Delete route is missing from routes.py
(only a placeholder comment stands at its place); the spec says it deletes
the record when present and returns 204 with an empty body in every case,
the idempotent DELETE semantics. -/
def delete_accounts (store : Store) (account_id : Nat) : Response × Store :=
  ({ status := 204, body := Json.null, location := none },
   store.delete account_id)

/-- A valid record: its attributes are well typed by construction, and its
date carries a well-formed ISO rendering. -/
def ValidAccount (a : Account) : Prop := isIsoDate a.date_joined = true

/-! Helper lemmas shared by the claim theorems. -/

lemma check_some_415 (m : String) (ct : Option String) (r : Response)
    (h : check_content_type m ct = some r) : r.status = 415 := by
  cases ct with
  | none =>
    simp only [check_content_type, Option.some.injEq] at h
    subst h; rfl
  | some s =>
    simp only [check_content_type] at h
    split at h
    · exact absurd h (by simp)
    · simp only [Option.some.injEq] at h
      subst h; rfl

lemma find?_filter_ne (l : List Account) (i : Nat) :
    List.find? (fun a => a.id == i) (List.filter (fun a => a.id != i) l) = none := by
  induction l with
  | nil => rfl
  | cons a t ih =>
    by_cases h : a.id = i
    · simp [List.filter_cons, h, ih]
    · simp [List.filter_cons, List.find?_cons, h, ih]

/-- One pass of the whitelist loop: apply the value bound to one key. -/
def stepKey (fields : List (String × Json)) (key : String) (acc : Option Account) :
    Option Account :=
  match acc with
  | none => none
  | some b =>
    match lookupKey fields key with
    | none => some b
    | some v => setField b key v

lemma applyFields_eq (a : Account) (fields : List (String × Json)) :
    applyFields a fields =
      stepKey fields "date_joined"
        (stepKey fields "phone_number"
          (stepKey fields "address"
            (stepKey fields "email" (stepKey fields "name" (some a))))) := rfl

lemma step_name (fields : List (String × Json)) (b c : Account)
    (h : stepKey fields "name" (some b) = some c) :
    c.id = b.id ∧ c.email = b.email ∧ c.address = b.address ∧
    c.phone_number = b.phone_number ∧ c.date_joined = b.date_joined ∧
    (lookupKey fields "name" = none → c.name = b.name) ∧
    (∀ s, lookupKey fields "name" = some (Json.str s) → c.name = s) := by
  cases hl : lookupKey fields "name" with
  | none =>
    simp only [stepKey, hl, Option.some.injEq] at h
    subst h; simp
  | some v =>
    simp only [stepKey, hl] at h
    cases v <;> simp [setField] at h
    subst h; simp [hl]

lemma step_email (fields : List (String × Json)) (b c : Account)
    (h : stepKey fields "email" (some b) = some c) :
    c.id = b.id ∧ c.name = b.name ∧ c.address = b.address ∧
    c.phone_number = b.phone_number ∧ c.date_joined = b.date_joined ∧
    (lookupKey fields "email" = none → c.email = b.email) ∧
    (∀ s, lookupKey fields "email" = some (Json.str s) → c.email = s) := by
  cases hl : lookupKey fields "email" with
  | none =>
    simp only [stepKey, hl, Option.some.injEq] at h
    subst h; simp
  | some v =>
    simp only [stepKey, hl] at h
    cases v <;> simp [setField] at h
    subst h; simp [hl]

lemma step_address (fields : List (String × Json)) (b c : Account)
    (h : stepKey fields "address" (some b) = some c) :
    c.id = b.id ∧ c.name = b.name ∧ c.email = b.email ∧
    c.phone_number = b.phone_number ∧ c.date_joined = b.date_joined ∧
    (lookupKey fields "address" = none → c.address = b.address) ∧
    (∀ s, lookupKey fields "address" = some (Json.str s) → c.address = some s) ∧
    (lookupKey fields "address" = some Json.null → c.address = none) := by
  cases hl : lookupKey fields "address" with
  | none =>
    simp only [stepKey, hl, Option.some.injEq] at h
    subst h; simp
  | some v =>
    simp only [stepKey, hl] at h
    cases v <;> simp [setField] at h <;> subst h <;> simp [hl]

lemma step_phone (fields : List (String × Json)) (b c : Account)
    (h : stepKey fields "phone_number" (some b) = some c) :
    c.id = b.id ∧ c.name = b.name ∧ c.email = b.email ∧
    c.address = b.address ∧ c.date_joined = b.date_joined ∧
    (lookupKey fields "phone_number" = none → c.phone_number = b.phone_number) ∧
    (∀ s, lookupKey fields "phone_number" = some (Json.str s) → c.phone_number = some s) ∧
    (lookupKey fields "phone_number" = some Json.null → c.phone_number = none) := by
  cases hl : lookupKey fields "phone_number" with
  | none =>
    simp only [stepKey, hl, Option.some.injEq] at h
    subst h; simp
  | some v =>
    simp only [stepKey, hl] at h
    cases v <;> simp [setField] at h <;> subst h <;> simp [hl]

lemma step_date (fields : List (String × Json)) (b c : Account)
    (h : stepKey fields "date_joined" (some b) = some c) :
    c.id = b.id ∧ c.name = b.name ∧ c.email = b.email ∧
    c.address = b.address ∧ c.phone_number = b.phone_number ∧
    (lookupKey fields "date_joined" = none → c.date_joined = b.date_joined) ∧
    (∀ s, lookupKey fields "date_joined" = some (Json.str s) → c.date_joined = s) := by
  cases hl : lookupKey fields "date_joined" with
  | none =>
    simp only [stepKey, hl, Option.some.injEq] at h
    subst h; simp
  | some v =>
    simp only [stepKey, hl] at h
    cases v <;> simp [setField] at h
    subst h; simp [hl]

lemma lookupKey_cons (kv : String × Json) (t : List (String × Json)) (k : String) :
    lookupKey (kv :: t) k = if kv.1 == k then some kv.2 else lookupKey t k := by
  by_cases hb : (kv.1 == k) = true
  · simp [lookupKey, List.find?_cons, hb]
  · simp [lookupKey, List.find?_cons, hb]

lemma lookupKey_filter_whitelist (fields : List (String × Json)) (k : String)
    (hk : valid_fields.contains k = true) :
    lookupKey (fields.filter (fun kv => valid_fields.contains kv.1)) k =
      lookupKey fields k := by
  induction fields with
  | nil => rfl
  | cons kv t ih =>
    rw [List.filter_cons]
    by_cases hc : valid_fields.contains kv.1 = true
    · rw [if_pos hc, lookupKey_cons, lookupKey_cons]
      by_cases hb : (kv.1 == k) = true
      · rw [if_pos hb, if_pos hb]
      · rw [if_neg hb, if_neg hb]
        exact ih
    · have hne : ¬((kv.1 == k) = true) := by
        intro hx
        rw [beq_iff_eq] at hx
        rw [hx] at hc
        exact hc hk
      rw [if_neg hc, lookupKey_cons, if_neg hne]
      exact ih

lemma stepKey_filter (fields : List (String × Json)) (k : String) (acc : Option Account)
    (hk : valid_fields.contains k = true) :
    stepKey (fields.filter (fun kv => valid_fields.contains kv.1)) k acc =
      stepKey fields k acc := by
  cases acc with
  | none => rfl
  | some b =>
    simp only [stepKey]
    rw [lookupKey_filter_whitelist fields k hk]

lemma applyFields_filter (a : Account) (fields : List (String × Json)) :
    applyFields a (fields.filter (fun kv => valid_fields.contains kv.1)) =
      applyFields a fields := by
  rw [applyFields_eq, applyFields_eq]
  rw [stepKey_filter fields "name" _ (by decide)]
  rw [stepKey_filter fields "email" _ (by decide)]
  rw [stepKey_filter fields "address" _ (by decide)]
  rw [stepKey_filter fields "phone_number" _ (by decide)]
  rw [stepKey_filter fields "date_joined" _ (by decide)]

/-! The claim theorems. -/

/-- C1: for every state of the datastore, the List operation returns status
200 with a JSON array containing one serialized record for each stored
account (the empty array when none exist); and a successful create grows
the store by exactly one record, so listing after creating N accounts
yields exactly N elements. -/
theorem list_accounts_lists_all (store : Store) :
    (list_accounts store).status = 200 ∧
    (list_accounts store).body = Json.arr (store.accounts.map Account.serialize) ∧
    (∀ today req, (create_accounts today store req).1.status = 201 →
      ((create_accounts today store req).2).accounts.length =
        store.accounts.length + 1) := by
  refine ⟨rfl, rfl, ?_⟩
  intro today req h
  rcases hct : check_content_type "application/json" req.contentType with _ | r <;>
    simp only [create_accounts, hct] at h ⊢
  · cases hd : Account.deserialize today req.body with
    | error msg => rw [hd] at h; simp [errResponse] at h
    | ok acct => simp [Store.create]
  · have := check_some_415 _ _ _ hct
    omega

/-- C1 witness: creating one account in the empty store succeeds and the
store then holds exactly one record, so the List array has one element. -/
theorem list_accounts_lists_all_witness :
    (create_accounts "2024-01-01" ⟨[], 1⟩
      ⟨some "application/json",
       Json.obj [("name", Json.str "A"), ("email", Json.str "a@b.c")]⟩).1.status = 201 ∧
    ((create_accounts "2024-01-01" ⟨[], 1⟩
      ⟨some "application/json",
       Json.obj [("name", Json.str "A"), ("email", Json.str "a@b.c")]⟩).2).accounts.length = 1 := by
  refine ⟨rfl, ?_⟩
  have h := (list_accounts_lists_all ⟨[], 1⟩).2.2 "2024-01-01"
    ⟨some "application/json",
     Json.obj [("name", Json.str "A"), ("email", Json.str "a@b.c")]⟩ rfl
  simpa using h

/-- C2: for every datastore state and identifier, the Delete operation
returns 204 with an empty body, removes the record with that id when it
exists, and is a no-error no-op when it does not; a subsequent read of
that id returns 404. -/
theorem delete_accounts_idempotent_204 (store : Store) (account_id : Nat) :
    (delete_accounts store account_id).1.status = 204 ∧
    (delete_accounts store account_id).1.body = Json.null ∧
    Store.find (delete_accounts store account_id).2 account_id = none ∧
    (get_account (delete_accounts store account_id).2 account_id).status = 404 := by
  have hf : Store.find (delete_accounts store account_id).2 account_id = none := by
    simp only [delete_accounts, Store.delete, Store.find]
    exact find?_filter_ne store.accounts account_id
  exact ⟨rfl, rfl, hf, by simp [get_account, hf, errResponse]⟩

/-- C3: a POST of a valid account returns 201 and a body whose fields equal
the submitted fields, but the Location header is the hardcoded root path
kept as a placeholder in the route, not the URL of the newly created
resource (which would be /accounts/1 here). -/
theorem create_location_header_is_root :
    (create_accounts "2024-01-01" ⟨[], 1⟩
      ⟨some "application/json",
       Json.obj [("name", Json.str "John Doe"),
                 ("email", Json.str "john@example.com"),
                 ("date_joined", Json.str "2020-01-15")]⟩).1.status = 201 ∧
    (create_accounts "2024-01-01" ⟨[], 1⟩
      ⟨some "application/json",
       Json.obj [("name", Json.str "John Doe"),
                 ("email", Json.str "john@example.com"),
                 ("date_joined", Json.str "2020-01-15")]⟩).1.body =
      Account.serialize ⟨1, "John Doe", "john@example.com", none, none, "2020-01-15"⟩ ∧
    (create_accounts "2024-01-01" ⟨[], 1⟩
      ⟨some "application/json",
       Json.obj [("name", Json.str "John Doe"),
                 ("email", Json.str "john@example.com"),
                 ("date_joined", Json.str "2020-01-15")]⟩).1.location = some "/" ∧
    ("/" : String) ≠ "/accounts/1" := ⟨rfl, rfl, rfl, by decide⟩

/-- C4 counterexample: a PUT with a wrong content-type on an id that does
not exist returns 404, not 415, so the guard does not run before the
existence check on this endpoint. -/
theorem update_wrong_content_type_missing_account_404 :
    (update_account ⟨[], 1⟩ 1
      ⟨some "text/html", Json.obj [("name", Json.str "X")]⟩).1.status = 404 ∧
    (404 : Nat) ≠ 415 := ⟨rfl, by decide⟩

/-- C4 amended: on POST the content-type guard runs before any business
logic, but on PUT the existence check runs first: a PUT with a wrong
content-type returns 415 when the account exists and 404 when it does
not. -/
theorem content_type_guard_order (store : Store) (account_id : Nat) (req : Request) :
    (store.find account_id = none →
      (update_account store account_id req).1.status = 404) ∧
    (∀ a, store.find account_id = some a →
      (check_content_type "application/json" req.contentType).isSome = true →
      (update_account store account_id req).1.status = 415) ∧
    (∀ today st, (check_content_type "application/json" req.contentType).isSome = true →
      (create_accounts today st req).1.status = 415) := by
  refine ⟨?_, ?_, ?_⟩
  · intro h
    simp [update_account, h, errResponse]
  · intro a hfind hct
    rcases ho : check_content_type "application/json" req.contentType with _ | r
    · rw [ho] at hct; cases hct
    · simp only [update_account, hfind, ho]
      exact check_some_415 _ _ _ ho
  · intro today st hct
    rcases ho : check_content_type "application/json" req.contentType with _ | r
    · rw [ho] at hct; cases hct
    · simp only [create_accounts, ho]
      exact check_some_415 _ _ _ ho

/-- C4 witness: concrete requests showing the 404, 415 and POST 415 cases. -/
theorem content_type_guard_order_witness :
    (update_account ⟨[], 1⟩ 99 ⟨some "text/html", Json.null⟩).1.status = 404 ∧
    (update_account ⟨[⟨1, "n", "e", none, none, "2020-01-15"⟩], 2⟩ 1
      ⟨some "text/html", Json.null⟩).1.status = 415 ∧
    (create_accounts "2024-01-01" ⟨[], 1⟩ ⟨some "text/html", Json.null⟩).1.status = 415 :=
  ⟨(content_type_guard_order ⟨[], 1⟩ 99 ⟨some "text/html", Json.null⟩).1 (by decide),
   (content_type_guard_order ⟨[⟨1, "n", "e", none, none, "2020-01-15"⟩], 2⟩ 1
      ⟨some "text/html", Json.null⟩).2.1 ⟨1, "n", "e", none, none, "2020-01-15"⟩
      (by decide) (by decide),
   (content_type_guard_order ⟨[], 1⟩ 99 ⟨some "text/html", Json.null⟩).2.2
      "2024-01-01" ⟨[], 1⟩ (by decide)⟩

/-- C5: a PUT on an existing account with JSON content-type and a non-empty
object body containing at least one whitelisted key applies exactly the
whitelisted fields present in the body: present fields take the submitted
value, absent whitelisted fields keep their previous value, unrecognized
keys are ignored (filtering the body to the whitelist yields the same
record), the identifier is untouched, and the response is the serialized
updated record with status 200, which is also persisted. -/
theorem update_applies_whitelisted_fields (store : Store) (account_id : Nat)
    (a a2 : Account) (fields : List (String × Json))
    (hfind : store.find account_id = some a)
    (hne : fields.isEmpty = false)
    (hany : valid_fields.any (fun key => (lookupKey fields key).isSome) = true)
    (happ : applyFields a fields = some a2) :
    (update_account store account_id ⟨some "application/json", Json.obj fields⟩).1.status = 200 ∧
    (update_account store account_id ⟨some "application/json", Json.obj fields⟩).1.body = a2.serialize ∧
    (update_account store account_id ⟨some "application/json", Json.obj fields⟩).2 = store.update a2 ∧
    a2.id = a.id ∧
    (lookupKey fields "name" = none → a2.name = a.name) ∧
    (∀ s, lookupKey fields "name" = some (Json.str s) → a2.name = s) ∧
    (lookupKey fields "email" = none → a2.email = a.email) ∧
    (∀ s, lookupKey fields "email" = some (Json.str s) → a2.email = s) ∧
    (lookupKey fields "address" = none → a2.address = a.address) ∧
    (∀ s, lookupKey fields "address" = some (Json.str s) → a2.address = some s) ∧
    (lookupKey fields "address" = some Json.null → a2.address = none) ∧
    (lookupKey fields "phone_number" = none → a2.phone_number = a.phone_number) ∧
    (∀ s, lookupKey fields "phone_number" = some (Json.str s) → a2.phone_number = some s) ∧
    (lookupKey fields "phone_number" = some Json.null → a2.phone_number = none) ∧
    (lookupKey fields "date_joined" = none → a2.date_joined = a.date_joined) ∧
    (∀ s, lookupKey fields "date_joined" = some (Json.str s) → a2.date_joined = s) ∧
    applyFields a (fields.filter (fun kv => valid_fields.contains kv.1)) = some a2 := by
  have happ0 := happ
  have hroute : update_account store account_id ⟨some "application/json", Json.obj fields⟩
      = ({ status := 200, body := a2.serialize, location := none }, store.update a2) := by
    simp only [update_account, hfind]
    rw [show check_content_type "application/json" (some "application/json") = none from rfl]
    simp [hne, hany, happ]
  rw [applyFields_eq] at happ
  rcases h1 : stepKey fields "name" (some a) with _ | b1 <;> rw [h1] at happ
  · simp [stepKey] at happ
  rcases h2 : stepKey fields "email" (some b1) with _ | b2 <;> rw [h2] at happ
  · simp [stepKey] at happ
  rcases h3 : stepKey fields "address" (some b2) with _ | b3 <;> rw [h3] at happ
  · simp [stepKey] at happ
  rcases h4 : stepKey fields "phone_number" (some b3) with _ | b4 <;> rw [h4] at happ
  · simp [stepKey] at happ
  obtain ⟨n_id, n_em, n_ad, n_ph, n_dj, n_none, n_some⟩ := step_name fields a b1 h1
  obtain ⟨m_id, m_nm, m_ad, m_ph, m_dj, m_none, m_some⟩ := step_email fields b1 b2 h2
  obtain ⟨d_id, d_nm, d_em, d_ph, d_dj, d_none, d_some, d_null⟩ := step_address fields b2 b3 h3
  obtain ⟨p_id, p_nm, p_em, p_ad, p_dj, p_none, p_some, p_null⟩ := step_phone fields b3 b4 h4
  obtain ⟨t_id, t_nm, t_em, t_ad, t_ph, t_none, t_some⟩ := step_date fields b4 a2 happ
  refine ⟨by rw [hroute], by rw [hroute], by rw [hroute], ?_, ?_, ?_, ?_, ?_, ?_, ?_,
          ?_, ?_, ?_, ?_, ?_, ?_, ?_⟩
  · rw [t_id, p_id, d_id, m_id, n_id]
  · intro h; rw [t_nm, p_nm, d_nm, m_nm, n_none h]
  · intro s h; rw [t_nm, p_nm, d_nm, m_nm, n_some s h]
  · intro h; rw [t_em, p_em, d_em, m_none h, n_em]
  · intro s h; rw [t_em, p_em, d_em, m_some s h]
  · intro h; rw [t_ad, p_ad, d_none h, m_ad, n_ad]
  · intro s h; rw [t_ad, p_ad, d_some s h]
  · intro h; rw [t_ad, p_ad, d_null h]
  · intro h; rw [t_ph, p_none h, d_ph, m_ph, n_ph]
  · intro s h; rw [t_ph, p_some s h]
  · intro h; rw [t_ph, p_null h]
  · intro h; rw [t_none h, p_dj, d_dj, m_dj, n_dj]
  · intro s h; rw [t_some s h]
  · rw [applyFields_filter]; exact happ0

/-- C5 witness: updating name and email of a stored account, with one
unrecognized key in the body, gives 200 and persists a record where only
those two fields changed. -/
theorem update_applies_whitelisted_fields_witness :
    (update_account ⟨[⟨1, "John", "j@e.com", some "Addr", some "555", "2020-01-15"⟩], 2⟩ 1
      ⟨some "application/json",
       Json.obj [("name", Json.str "Updated Name"),
                 ("email", Json.str "updated@example.com"),
                 ("junk", Json.num 5)]⟩).1.status = 200 ∧
    (update_account ⟨[⟨1, "John", "j@e.com", some "Addr", some "555", "2020-01-15"⟩], 2⟩ 1
      ⟨some "application/json",
       Json.obj [("name", Json.str "Updated Name"),
                 ("email", Json.str "updated@example.com"),
                 ("junk", Json.num 5)]⟩).2 =
      Store.update ⟨[⟨1, "John", "j@e.com", some "Addr", some "555", "2020-01-15"⟩], 2⟩
        ⟨1, "Updated Name", "updated@example.com", some "Addr", some "555", "2020-01-15"⟩ := by
  have h := update_applies_whitelisted_fields
    ⟨[⟨1, "John", "j@e.com", some "Addr", some "555", "2020-01-15"⟩], 2⟩ 1
    ⟨1, "John", "j@e.com", some "Addr", some "555", "2020-01-15"⟩
    ⟨1, "Updated Name", "updated@example.com", some "Addr", some "555", "2020-01-15"⟩
    [("name", Json.str "Updated Name"), ("email", Json.str "updated@example.com"),
     ("junk", Json.num 5)]
    (by decide) (by decide) (by decide) (by decide)
  exact ⟨h.1, h.2.2.1⟩

/-- C6: a PUT on an existing account with JSON content-type returns 400
with message Invalid JSON data provided when the body is the empty object
or not a JSON object at all, and 400 with message No valid fields provided
for update when the body is a non-empty object containing none of the
whitelisted keys; the store is unchanged in every such case. -/
theorem update_rejects_invalid_bodies (store : Store) (account_id : Nat) (a : Account)
    (hfind : store.find account_id = some a) :
    (∀ fields, fields.isEmpty = true →
      update_account store account_id ⟨some "application/json", Json.obj fields⟩ =
        (errResponse 400 "Invalid JSON data provided", store)) ∧
    (∀ body, (∀ fields, body ≠ Json.obj fields) →
      update_account store account_id ⟨some "application/json", body⟩ =
        (errResponse 400 "Invalid JSON data provided", store)) ∧
    (∀ fields, fields.isEmpty = false →
      valid_fields.any (fun key => (lookupKey fields key).isSome) = false →
      update_account store account_id ⟨some "application/json", Json.obj fields⟩ =
        (errResponse 400 "No valid fields provided for update", store)) := by
  have hchk : check_content_type "application/json" (some "application/json") = none := rfl
  refine ⟨?_, ?_, ?_⟩
  · intro fields hf
    simp [update_account, hfind, hchk, hf]
  · intro body hb
    cases body with
    | obj fields => exact absurd rfl (hb fields)
    | null => simp [update_account, hfind, hchk]
    | bool b => simp [update_account, hfind, hchk]
    | num n => simp [update_account, hfind, hchk]
    | str s => simp [update_account, hfind, hchk]
    | arr xs => simp [update_account, hfind, hchk]
  · intro fields hf ha
    simp [update_account, hfind, hchk, hf, ha]

/-- C6 witness: the empty object, a null body, and an object with only an
unrecognized key each give the stated 400 response on a stored account. -/
theorem update_rejects_invalid_bodies_witness :
    update_account ⟨[⟨1, "n", "e", none, none, "2020-01-15"⟩], 2⟩ 1
      ⟨some "application/json", Json.obj []⟩ =
      (errResponse 400 "Invalid JSON data provided",
       ⟨[⟨1, "n", "e", none, none, "2020-01-15"⟩], 2⟩) ∧
    update_account ⟨[⟨1, "n", "e", none, none, "2020-01-15"⟩], 2⟩ 1
      ⟨some "application/json", Json.null⟩ =
      (errResponse 400 "Invalid JSON data provided",
       ⟨[⟨1, "n", "e", none, none, "2020-01-15"⟩], 2⟩) ∧
    update_account ⟨[⟨1, "n", "e", none, none, "2020-01-15"⟩], 2⟩ 1
      ⟨some "application/json", Json.obj [("junk", Json.str "x")]⟩ =
      (errResponse 400 "No valid fields provided for update",
       ⟨[⟨1, "n", "e", none, none, "2020-01-15"⟩], 2⟩) := by
  have h := update_rejects_invalid_bodies ⟨[⟨1, "n", "e", none, none, "2020-01-15"⟩], 2⟩ 1
    ⟨1, "n", "e", none, none, "2020-01-15"⟩ (by decide)
  exact ⟨h.1 [] rfl,
         h.2.1 Json.null (fun fields hf => Json.noConfusion hf),
         h.2.2 [("junk", Json.str "x")] rfl (by decide)⟩

/-- C7: a GET of an id with no matching record returns 404 with the message
naming that id, and a GET of a stored id returns the serialized record with
status 200. -/
theorem get_account_read_spec (store : Store) (account_id : Nat) :
    (store.find account_id = none →
      (get_account store account_id).status = 404 ∧
      (get_account store account_id).body =
        Json.str ("Account with id [" ++ toString account_id ++ "] could not be found.")) ∧
    (∀ a, store.find account_id = some a →
      get_account store account_id =
        { status := 200, body := a.serialize, location := none }) := by
  constructor
  · intro h
    simp [get_account, h, errResponse]
  · intro a h
    simp [get_account, h]

/-- C7 witness: reading id 42 from the empty store gives the 404 message
naming 42; reading a stored account gives 200 and its serialization. -/
theorem get_account_read_spec_witness :
    (get_account ⟨[], 1⟩ 42).status = 404 ∧
    (get_account ⟨[], 1⟩ 42).body =
      Json.str ("Account with id [" ++ toString 42 ++ "] could not be found.") ∧
    get_account ⟨[⟨1, "n", "e", none, none, "2020-01-15"⟩], 2⟩ 1 =
      { status := 200,
        body := Account.serialize ⟨1, "n", "e", none, none, "2020-01-15"⟩,
        location := none } :=
  ⟨((get_account_read_spec ⟨[], 1⟩ 42).1 (by decide)).1,
   ((get_account_read_spec ⟨[], 1⟩ 42).1 (by decide)).2,
   (get_account_read_spec ⟨[⟨1, "n", "e", none, none, "2020-01-15"⟩], 2⟩ 1).2
     ⟨1, "n", "e", none, none, "2020-01-15"⟩ (by decide)⟩

/-- C8: deserializing the serialization of any valid account record
reproduces the record exactly, the date having gone over the wire in its
ISO string rendering. -/
theorem serialize_deserialize_roundtrip (today : String) (a : Account)
    (hv : ValidAccount a) :
    Account.deserialize today (Account.serialize a) = Except.ok a := by
  obtain ⟨i, n, e, ad, ph, dj⟩ := a
  unfold ValidAccount at hv
  simp only at hv
  cases ad <;> cases ph <;>
    simp [Account.serialize, Account.deserialize, lookupKey, List.find?, readOptStr,
          readId, optStrJson, hv]

/-- C8 witness: a concrete valid record round-trips. -/
theorem serialize_deserialize_roundtrip_witness :
    ValidAccount ⟨7, "Jane", "jane@example.com", some "2 Oak Ave", none, "2021-12-31"⟩ ∧
    Account.deserialize "2024-01-01"
      (Account.serialize ⟨7, "Jane", "jane@example.com", some "2 Oak Ave", none, "2021-12-31"⟩) =
      Except.ok ⟨7, "Jane", "jane@example.com", some "2 Oak Ave", none, "2021-12-31"⟩ :=
  ⟨by unfold ValidAccount; decide,
   serialize_deserialize_roundtrip "2024-01-01"
     ⟨7, "Jane", "jane@example.com", some "2 Oak Ave", none, "2021-12-31"⟩
     (by unfold ValidAccount; decide)⟩

/-- C9: the guard aborts with 415 and the message Content-Type must be
application/json when no Content-Type header is present at all, and it
passes exactly when the header is present and equal to application/json. -/
theorem check_content_type_requires_exact_header (ct : Option String) :
    check_content_type "application/json" none =
      some (errResponse 415 "Content-Type must be application/json") ∧
    (check_content_type "application/json" ct = none ↔ ct = some "application/json") := by
  refine ⟨rfl, ?_⟩
  cases ct with
  | none => simp [check_content_type]
  | some s =>
    simp only [check_content_type]
    split
    · rename_i hc
      simp only [Bool.and_eq_true, bne_iff_ne, ne_eq, beq_iff_eq] at hc
      simp [hc.2]
    · rename_i hc
      simp only [Bool.and_eq_true, bne_iff_ne, ne_eq, beq_iff_eq, not_and] at hc
      constructor
      · intro h; cases h
      · intro h
        injection h with h
        subst h
        exact absurd rfl (hc (by decide))

/-- C9 witness: the exact header passes, a mismatching one does not. -/
theorem check_content_type_requires_exact_header_witness :
    check_content_type "application/json" (some "application/json") = none ∧
    check_content_type "application/json" (some "text/html") ≠ none :=
  ⟨(check_content_type_requires_exact_header (some "application/json")).2.mpr rfl,
   fun h => by
     have := (check_content_type_requires_exact_header (some "text/html")).2.mp h
     simp at this⟩

/-- C10: whenever a PUT fails with any non-200 status (404 missing record,
415 wrong content-type, 400 invalid or field-less body), the datastore is
left exactly as it was. -/
theorem update_errors_preserve_store (store : Store) (account_id : Nat) (req : Request)
    (h : (update_account store account_id req).1.status ≠ 200) :
    (update_account store account_id req).2 = store := by
  rcases hfind : store.find account_id with _ | a <;>
    simp only [update_account, hfind] at h ⊢
  rcases hct : check_content_type "application/json" req.contentType with _ | r <;>
    simp only [hct] at h ⊢
  · cases hb : req.body <;> simp only [hb] at h ⊢
    rename_i fields
    by_cases he : fields.isEmpty <;>
      simp only [he, if_true, if_false, Bool.false_eq_true, ite_false, ite_true] at h ⊢
    by_cases ha : valid_fields.any (fun key => (lookupKey fields key).isSome) <;>
      simp only [ha, if_true, if_false, Bool.false_eq_true, ite_false, ite_true] at h ⊢
    cases happ : applyFields a fields <;> simp only [happ] at h ⊢
    exact absurd rfl h

/-- C10 witness: a 404 PUT on the empty store leaves the store as it was. -/
theorem update_errors_preserve_store_witness :
    (update_account ⟨[], 1⟩ 1
      ⟨some "application/json", Json.obj [("name", Json.str "X")]⟩).2 = ⟨[], 1⟩ :=
  update_errors_preserve_store ⟨[], 1⟩ 1
    ⟨some "application/json", Json.obj [("name", Json.str "X")]⟩ (by decide)
